import Mathlib

/-!
Shallow embedding of the verible AUTO-expansion engine (language-server
`autoexpand` feature) and of the terminal-interaction helper
`ReadCharFromUser`, together with theorems settling the specification
claims about them.

The AUTO-expansion engine itself (`autoexpand.cc`) is not part of the
source tree available here; only its golden test-suite
(`verilog/tools/ls/autoexpand_test.cc`) and the symbol-table handler
declaration are.  The engine is therefore modelled from the
specification (spec.md §3-§4.6), with every behaviour that the golden
tests pin taken from those tests (they are the authoritative code).
`ReadCharFromUser` is embedded directly from
`common/util/user_interaction.cc`.
-/

namespace Verible

/-- Port/variable direction, as in the spec's Port model (§3):
`direction ∈ {input, output, inout, wire, reg}`. -/
inductive Direction where
  | input
  | output
  | inout
  | wire
  | reg
deriving DecidableEq

/-- Modelled from the spec: a Port (§3) — name, direction, ordered packed
dimension strings (e.g. `"[15:0]"`) and unpacked dimension strings. -/
structure Port where
  name : String
  dir : Direction
  packed : List String
  unpacked : List String
deriving DecidableEq

/-- The bracketed-dimension comment appended to a connection expression,
as pinned by the golden tests: `/*packed*/`, `/*.[unpacked]*/` or
`/*packed.[unpacked]*/`. -/
def dimComment (packed unpacked : List String) : String :=
  "  /*" ++ String.join packed ++
    (if unpacked.isEmpty then "" else "." ++ String.join unpacked) ++ "*/"

/-- Connection expression for a port, with an arbitrary stem in place of
the port name (used both for the default rule and for `stem[]` template
substitution, spec §4.3/§4.4).  Pinned by `AUTOINST_ExpandEmpty`:
a single packed dimension and no unpacked dimension yields a bit-slice
`stem[packed]`; no dimensions yield `stem`; every other combination
(including several packed dimensions) yields `stem` followed by a
dimension comment. -/
def connExprWithStem (stem : String) (p : Port) : String :=
  match p.packed, p.unpacked with
  | [], [] => stem
  | [d], [] => stem ++ d
  | _, _ => stem ++ dimComment p.packed p.unpacked

/-- Default AUTOINST connection expression for a port (spec §4.3): the
port's own name combined with its dimensions. -/
def defaultConnExpr (p : Port) : String :=
  connExprWithStem p.name p

/-- Modelled from the spec: one AUTO_TEMPLATE rule (§3): the name of the
module it applies to and a map from port name to expression template.
The per-rule regex is accepted and ignored by the engine (§9), so it is
not represented. -/
structure TemplateRule where
  moduleName : String
  connections : List (String × String)
deriving DecidableEq

/-- Modelled from the spec: rule selection (§4.4) — scan all rules of the
enclosing module in source order and keep the last one whose
`module_name` equals the instantiated module's name. -/
def selectRule (rules : List TemplateRule) (modName : String) :
    Option TemplateRule :=
  rules.foldl (fun acc r => if r.moduleName == modName then some r else acc)
    none

/-- The template entry (if any) an active rule has for a given port name. -/
def ruleEntry (rule? : Option TemplateRule) (portName : String) :
    Option String :=
  match rule? with
  | none => none
  | some r =>
    match r.connections.find? (fun e => e.fst == portName) with
    | none => none
    | some e => some e.snd

/-- Modelled from the spec: template substitution (§4.4).  A template
ending in `[]` contributes its stem combined with the port's dimensions
exactly like the default rule; any other template is used verbatim;
a port without an entry falls back to the default connection
expression. -/
def templConnExpr (rule? : Option TemplateRule) (p : Port) : String :=
  match ruleEntry rule? p.name with
  | none => defaultConnExpr p
  | some t =>
    if t.endsWith "[]" then connExprWithStem (t.dropRight 2) p else t

/-- Modelled from the spec: the name a port contributes to the
declaration-directive candidate sets (§4.5.3): if the active template
rule rewrites the port to a name `N` (with or without `[]`), `N` takes
the place of the original port name. -/
def templPortName (rule? : Option TemplateRule) (p : Port) : String :=
  match ruleEntry rule? p.name with
  | none => p.name
  | some t => if t.endsWith "[]" then t.dropRight 2 else t

/-- A named port connection `.port(expr)` of an instance. -/
structure Connection where
  portName : String
  expr : String
deriving DecidableEq

/-- Modelled from the spec: an Instance (§3).  `preConns` are the
connections already written before the AUTOINST directive (preserved
verbatim, §4.5.2); `genConns` is the trailing generated connection
block, replaced wholesale on each expansion (§4.5.6). -/
structure VInstance where
  instName : String
  modName : String
  hasAutoinst : Bool
  preConns : List Connection
  genConns : List Connection
deriving DecidableEq

/-- The seven AUTO directive kinds (§3). -/
inductive DirectiveKind where
  | autoarg
  | autoinput
  | autooutput
  | autoinout
  | autowire
  | autoreg
deriving DecidableEq

/-- Insertion context of a directive (§3): inside the module's header
parentheses or in the body.  (AUTOINST lives on the instance itself.) -/
inductive DirContext where
  | headerParen
  | body
deriving DecidableEq

/-- One declaration emitted into a generated block:
`kw dims name[unpacked];  // To/From inst of module` (§4.3).
`provenance` is `none` for AUTOREG declarations. -/
structure GenDecl where
  kw : Direction
  packed : List String
  name : String
  unpacked : List String
  provenance : Option (String × String)
deriving DecidableEq

/-- Modelled from the spec: a Directive (§3) with its trailing generated
block — declarations for the declaration-emitting kinds, argument names
for AUTOARG.  The generated block is empty before the first
expansion. -/
structure Directive where
  kind : DirectiveKind
  context : DirContext
  genDecls : List GenDecl
  genArgs : List String
deriving DecidableEq

/-- Modelled from the spec: a Module (§3): declared ports (header and
body surfaces), local net/variable declarations with their kinds,
pre-declared argument tokens sitting in the header parentheses before an
AUTOARG directive, template rules flattened across all AUTO_TEMPLATE
blocks in source order, instances and directives. -/
structure VModule where
  name : String
  headerPorts : List Port
  bodyPorts : List Port
  locals : List (String × Direction)
  preArgTokens : List String
  templates : List TemplateRule
  instances : List VInstance
  directives : List Directive
deriving DecidableEq

/-- Modelled from the spec: lookup within one file (§4.2): declarations
are scanned in source order, the first declaration of a name wins. -/
def lookupFile : List VModule → String → Option VModule
  | [], _ => none
  | m :: ms, n => if m.name == n then some m else lookupFile ms n

/-- Modelled from the spec: the Project Resolver's `lookup` (§4.2):
files are scanned in registration order (current file first), the first
declaration encountered wins; later declarations are silently
ignored. -/
def lookupProject : List (List VModule) → String → Option VModule
  | [], _ => none
  | f :: fs, n =>
    match lookupFile f n with
    | some m => some m
    | none => lookupProject fs n

/-- The declared ports of a module as written by the user: header plus
body surfaces, in source order (§3). -/
def basePorts (m : VModule) : List Port :=
  m.headerPorts ++ m.bodyPorts

/-- All names declared in the module outside generated blocks: port
names and local net/variable names.  This is the exclusion set of the
declaration-emitting directives (§4.5.3). -/
def baseDeclaredNames (m : VModule) : List String :=
  (basePorts m).map Port.name ++ m.locals.map Prod.fst

/-- A generated declaration read back as a port of the module. -/
def genDeclPort (g : GenDecl) : Port :=
  { name := g.name, dir := g.kw, packed := g.packed, unpacked := g.unpacked }

/-- Whether a directive kind declares ports of the enclosing module. -/
def isPortDirectiveKind : DirectiveKind → Bool
  | .autoinput => true
  | .autooutput => true
  | .autoinout => true
  | _ => false

/-- Ports contributed by the module's generated AUTOINPUT / AUTOOUTPUT /
AUTOINOUT blocks; with `basePorts` they form the currently declared port
set used on each fixed-point pass (§4.6). -/
def genPorts (m : VModule) : List Port :=
  (m.directives.filter fun d => isPortDirectiveKind d.kind).flatMap
    fun d => d.genDecls.map genDeclPort

/-- The currently declared port set of a module, as other modules (and
later passes) observe it (§4.6). -/
def portsExternal (m : VModule) : List Port :=
  basePorts m ++ genPorts m

/-- Whether a direction is a connectable port direction. -/
def isConnPortDir : Direction → Bool
  | .input => true
  | .inout => true
  | .output => true
  | _ => false

/-- Group ports by direction in the emission order pinned by the golden
tests: `// Inputs`, `// Inouts`, `// Outputs` (§4.3). -/
def groupByDirection (ps : List Port) : List Port :=
  ps.filter (fun p => p.dir == Direction.input) ++
    ps.filter (fun p => p.dir == Direction.inout) ++
      ps.filter (fun p => p.dir == Direction.output)

/-- Modelled from the spec: AUTOINST expansion of one instance (§4.5.2).
If the instance has no AUTOINST directive it is untouched.  If the
target module does not resolve, no edit is produced.  Otherwise the
generated block is recomputed: one `.port(expr)` per target port not
already connected by name in the pre-existing argument list, with the
Template Engine applied; pre-existing connections are preserved
verbatim. -/
def expandInstance (env : List (List VModule)) (templates : List TemplateRule)
    (inst : VInstance) : VInstance :=
  if !inst.hasAutoinst then inst
  else
    match lookupProject env inst.modName with
    | none => inst
    | some target =>
      let rule? := selectRule templates inst.modName
      let ports := (portsExternal target).filter fun p => isConnPortDir p.dir
      let todo := ports.filter fun p =>
        !(inst.preConns.any fun c => c.portName == p.name)
      { inst with genConns :=
          (groupByDirection todo).map fun p =>
            { portName := p.name, expr := templConnExpr rule? p } }

/-- Which port directions a declaration directive kind collects from
instantiated modules (§4.5.3, §4.5.4). -/
def dirMatchesKind (k : DirectiveKind) (d : Direction) : Bool :=
  match k with
  | .autoinput => d == Direction.input
  | .autooutput => d == Direction.output
  | .autoinout => d == Direction.inout
  | .autowire => d == Direction.output || d == Direction.inout
  | _ => false

/-- The declaration keyword a directive kind emits (§4.3). -/
def declKeyword : DirectiveKind → Direction
  | .autoinput => Direction.input
  | .autooutput => Direction.output
  | .autoinout => Direction.inout
  | .autowire => Direction.wire
  | _ => Direction.reg

/-- Modelled from the spec: candidate declarations one instance
contributes to a declaration directive (§4.5.3): the resolved target
module's ports of the matching directions, with the instance's active
template rule renaming applied; an unresolved target contributes
nothing. -/
def instCandidates (env : List (List VModule)) (templates : List TemplateRule)
    (k : DirectiveKind) (inst : VInstance) : List GenDecl :=
  match lookupProject env inst.modName with
  | none => []
  | some target =>
    let rule? := selectRule templates inst.modName
    ((portsExternal target).filter fun p => dirMatchesKind k p.dir).map fun p =>
      { kw := declKeyword k, packed := p.packed,
        name := templPortName rule? p, unpacked := p.unpacked,
        provenance := some (inst.instName, inst.modName) }

/-- Deduplicate generated declarations by name, keeping the first
occurrence (§4.5.3). -/
def dedupByName : List GenDecl → List String → List GenDecl
  | [], _ => []
  | g :: gs, seen =>
    if seen.contains g.name then dedupByName gs seen
    else g :: dedupByName gs (g.name :: seen)

/-- Modelled from the spec: the generated block of AUTOINPUT /
AUTOOUTPUT / AUTOINOUT / AUTOWIRE (§4.5.3, §4.5.4): candidates from all
instances, minus names already declared in the enclosing module, first
occurrence kept. -/
def declDirectiveGen (env : List (List VModule)) (m : VModule)
    (k : DirectiveKind) : List GenDecl :=
  let cands := m.instances.flatMap (instCandidates env m.templates k)
  dedupByName (cands.filter fun g => !((baseDeclaredNames m).contains g.name))
    []

/-- Names of the local declarations of kind `reg`. -/
def regDeclaredNames (m : VModule) : List String :=
  (m.locals.filter fun l => l.snd == Direction.reg).map Prod.fst

/-- Names of instantiated-module output and inout ports (after template
renaming), i.e. the names driven by instances.  Pinned by the AUTOREG
golden tests: such outputs are never turned into regs. -/
def instDrivenNames (env : List (List VModule)) (m : VModule) : List String :=
  (m.instances.flatMap (instCandidates env m.templates DirectiveKind.autowire)).map
    GenDecl.name

/-- Modelled from the spec: the generated block of AUTOREG (§4.5.5):
`reg` declarations for the enclosing module's output ports not already
declared as `reg`, excluding (as the golden tests pin) outputs driven by
an instantiated module. -/
def autoregGen (env : List (List VModule)) (m mCur : VModule) : List GenDecl :=
  let outs := (portsExternal mCur).filter fun p => p.dir == Direction.output
  let todo := outs.filter fun p =>
    !((regDeclaredNames m).contains p.name) &&
      !((instDrivenNames env m).contains p.name)
  dedupByName (todo.map fun p =>
    { kw := Direction.reg, packed := p.packed, name := p.name,
      unpacked := p.unpacked, provenance := none }) []

/-- Deduplicate a list of names, keeping the first occurrence. -/
def dedupNames : List String → List String → List String
  | [], _ => []
  | n :: ns, seen =>
    if seen.contains n then dedupNames ns seen
    else n :: dedupNames ns (n :: seen)

/-- Modelled from the spec: the AUTOARG argument list (§4.5.1): the
union of currently declared ports, grouped by direction, excluding any
name already present as a pre-declared argument token before the
directive, de-duplicated keeping first occurrence. -/
def autoargArgs (m mCur : VModule) : List String :=
  let ps := groupByDirection ((portsExternal mCur).filter fun p =>
    isConnPortDir p.dir)
  dedupNames ((ps.map Port.name).filter fun n => !(m.preArgTokens.contains n))
    []

/-- First stage of module expansion: recompute the generated blocks of
the port-declaring directives (AUTOINPUT / AUTOOUTPUT / AUTOINOUT) from
the environment; allowed in body or header-paren context (§4.5.3). -/
def expandPortDirective (env : List (List VModule)) (m : VModule)
    (d : Directive) : Directive :=
  if isPortDirectiveKind d.kind then
    { d with genDecls := declDirectiveGen env m d.kind }
  else d

/-- Modelled from the spec: expansion of one module within one
fixed-point pass.  Port-declaring directives are recomputed first; then
AUTOWIRE / AUTOREG (body context only) and AUTOARG (header-paren
context only — a directive in the wrong context produces no edit, §7)
are recomputed against the module's now-current declared port set; the
instances' AUTOINST blocks are recomputed from the environment. -/
def expandOtherDirective (env : List (List VModule)) (m mCur : VModule)
    (d : Directive) : Directive :=
  match d.kind, d.context with
  | DirectiveKind.autowire, DirContext.body =>
    { d with genDecls := declDirectiveGen env m DirectiveKind.autowire }
  | DirectiveKind.autoreg, DirContext.body =>
    { d with genDecls := autoregGen env m mCur }
  | DirectiveKind.autoarg, DirContext.headerParen =>
    { d with genArgs := autoargArgs m mCur }
  | _, _ => d

/-- Modelled from the spec: expansion of one module within one
fixed-point pass (see `expandPortDirective` and
`expandOtherDirective`). -/
def expandModule (env : List (List VModule)) (m : VModule) : VModule :=
  let dirs1 := m.directives.map (expandPortDirective env m)
  let m1 := { m with directives := dirs1 }
  { m with
    directives := dirs1.map (expandOtherDirective env m m1),
    instances := m.instances.map (expandInstance env m.templates) }

/-- One fixed-point pass over the buffer (§4.6): every module is
expanded against the buffer state at the start of the pass, with the
peer project files visible through the resolver after the current
file. -/
def expandPass (peers : List (List VModule)) (buf : List VModule) :
    List VModule :=
  buf.map (expandModule (buf :: peers))

/-- Modelled from the spec: the full expansion of a buffer: the bounded
fixed-point of §4.6 with K = 2 passes (early convergence exit returns
the same value, so the two-pass composition is the engine's
input-output function). -/
def expand (peers : List (List VModule)) (buf : List VModule) :
    List VModule :=
  expandPass peers (expandPass peers buf)

/-- The line `std::getline` extracts from the remaining stream content:
the characters before the first newline (the delimiter itself is
consumed and discarded). -/
def getlineLine (input : List Char) : List Char :=
  input.takeWhile (fun c => c != '\n')

/-- Whether `input.eof() || input.fail()` holds right after the
`std::getline` call: the stream entered an eof/fail state iff no newline
delimiter was present in the remaining content (an empty stream
additionally sets failbit; both cases are covered). -/
def getlineEofOrFail (input : List Char) : Bool :=
  !(input.contains '\n')

/-- Embedding of `verible::ReadCharFromUser`
(common/util/user_interaction.cc).  The C++ stream pair is modelled by
the remaining input characters; the returned pair is the character the
function returns and the text written to the output stream.  Terminal
input: print the prompt, read a whole line, return `'\0'` if the stream
reports eof/failure after the read, otherwise the line's first
character, or `'\n'` for an empty line.  Non-terminal input: no prompt,
read a single character, `'\0'` on eof/failure. -/
def ReadCharFromUser (input : List Char) (inputIsTerminal : Bool)
    (prompt : String) : Char × String :=
  if inputIsTerminal then
    if getlineEofOrFail input then ('\x00', prompt)
    else
      match getlineLine input with
      | [] => ('\n', prompt)
      | c :: _ => (c, prompt)
  else
    match input with
    | [] => ('\x00', "")
    | c :: _ => (c, "")

/-! Helper lemmas shared by the claim theorems. -/

theorem find?_eq_head?_filter {α : Type} (p : α → Bool) (l : List α) :
    l.find? p = (l.filter p).head? := by
  induction l with
  | nil => rfl
  | cons a l ih =>
    cases h : p a
    · rw [List.find?_cons_of_neg _ (by simp [h]),
        List.filter_cons_of_neg (by simp [h]), ih]
    · rw [List.find?_cons_of_pos _ h, List.filter_cons_of_pos h]
      rfl

theorem selectRule_foldl_eq (rules : List TemplateRule) (n : String)
    (acc : Option TemplateRule) :
    rules.foldl (fun a r => if r.moduleName == n then some r else a) acc =
      (rules.reverse.find? fun r => r.moduleName == n).or acc := by
  induction rules generalizing acc with
  | nil => rfl
  | cons r rs ih =>
    simp only [List.foldl_cons, List.reverse_cons, List.find?_append, ih,
      Option.or_assoc]
    congr 1
    cases h : r.moduleName == n <;> simp [List.find?, h]

theorem mem_of_mem_dedupByName (l : List GenDecl) (seen : List String)
    (g : GenDecl) (h : g ∈ dedupByName l seen) : g ∈ l := by
  induction l generalizing seen with
  | nil => simp [dedupByName] at h
  | cons a l ih =>
    simp only [dedupByName] at h
    cases hs : seen.contains a.name
    · rw [hs] at h
      simp only [Bool.false_eq_true, if_false, List.mem_cons] at h
      rcases h with h | h
      · exact h ▸ List.mem_cons_self a l
      · exact List.mem_cons_of_mem a (ih _ h)
    · rw [hs] at h
      simp only [if_true] at h
      exact List.mem_cons_of_mem a (ih _ h)

theorem mem_of_groupByDirection (ps : List Port) (p : Port)
    (h : p ∈ groupByDirection ps) : p ∈ ps := by
  simp only [groupByDirection, List.mem_append, List.mem_filter] at h
  tauto

/-! Claim theorems. -/

/-- C2: for every AUTOINST expansion of an instance of module M, the
rule applied is the last rule in source order (across all template
blocks of the enclosing module) whose `module_name` equals M; if no
rule names M, no template applies and every port falls back to the
default connection expression. -/
theorem selectRule_last_match_wins (rules : List TemplateRule) (n : String) :
    selectRule rules n =
        (rules.filter fun r => r.moduleName == n).getLast? ∧
      ((rules.filter fun r => r.moduleName == n) = [] →
        ∀ p : Port, templConnExpr (selectRule rules n) p = defaultConnExpr p) := by
  have hsel : selectRule rules n =
      (rules.filter fun r => r.moduleName == n).getLast? := by
    rw [selectRule, selectRule_foldl_eq, Option.or_none,
      find?_eq_head?_filter, List.filter_reverse, List.head?_reverse]
  refine ⟨hsel, fun hnil p => ?_⟩
  rw [hsel, hnil]
  rfl

/-- C2 witness: on a concrete rule list with two rules for `bar`, the
selected rule is the last one, and with no matching rule the default
connection expression is used. -/
theorem selectRule_last_match_wins_witness :
    templConnExpr
        (selectRule [⟨"bar", [("x", "a")]⟩, ⟨"bar", [("x", "b")]⟩] "qux")
        ⟨"x", Direction.input, [], []⟩ =
      defaultConnExpr ⟨"x", Direction.input, [], []⟩ :=
  (selectRule_last_match_wins
    [⟨"bar", [("x", "a")]⟩, ⟨"bar", [("x", "b")]⟩] "qux").2 (by decide)
    ⟨"x", Direction.input, [], []⟩

/-- C3 counterexample: with two rules naming `bar`, the engine does not
apply the first matching rule: the first rule is not selected and the
second rule's connection expression is emitted. -/
theorem selectRule_not_first_match :
    selectRule [⟨"bar", [("x", "a")]⟩, ⟨"bar", [("x", "b")]⟩] "bar" ≠
        some ⟨"bar", [("x", "a")]⟩ ∧
      templConnExpr
          (selectRule [⟨"bar", [("x", "a")]⟩, ⟨"bar", [("x", "b")]⟩] "bar")
          ⟨"x", Direction.input, [], []⟩ = "b" := by
  constructor
  · decide
  · rfl

/-- C3 amended: an instance is matched to at most one template rule per
expansion (rule selection returns at most one rule), and ties between
rules naming the same module are broken by source order with the LAST
matching rule winning — selection equals the first match on the
reversed rule list. -/
theorem selectRule_eq_reverse_find (rules : List TemplateRule) (n : String) :
    selectRule rules n = rules.reverse.find? fun r => r.moduleName == n := by
  rw [selectRule, selectRule_foldl_eq, Option.or_none]

/-- C4 counterexample: the port `io` with packed dimensions
`[7:0][7:0]` and no unpacked dimension (from `AUTOINST_ExpandEmpty`)
does not get the bit-slice expression `io[7:0][7:0]`; it gets a
dimension comment instead. -/
theorem defaultConnExpr_multi_packed_counterexample :
    defaultConnExpr ⟨"io", Direction.inout, ["[7:0]", "[7:0]"], []⟩ ≠
        "io[7:0][7:0]" ∧
      defaultConnExpr ⟨"io", Direction.inout, ["[7:0]", "[7:0]"], []⟩ =
        "io  /*[7:0][7:0]*/" := by
  constructor
  · decide
  · rfl

/-- C4 amended: for a port with exactly one packed dimension and no
unpacked dimension the default AUTOINST connection expression is the
bit-slice `name[packed]`; with two or more packed dimensions (and no
unpacked dimension) it is the name followed by a packed-dimension
comment. -/
theorem defaultConnExpr_packed_cases :
    (∀ (p : Port) (d : String), p.packed = [d] → p.unpacked = [] →
        defaultConnExpr p = p.name ++ d) ∧
      (∀ p : Port, 2 ≤ p.packed.length → p.unpacked = [] →
        defaultConnExpr p = p.name ++ dimComment p.packed []) := by
  constructor
  · intro p d hp hu
    simp [defaultConnExpr, connExprWithStem, hp, hu]
  · intro p hlen hu
    rcases hp : p.packed with _ | ⟨a, _ | ⟨b, rest⟩⟩
    · rw [hp] at hlen; simp at hlen
    · rw [hp] at hlen; simp at hlen
    · simp [defaultConnExpr, connExprWithStem, hp, hu]

/-- C4 amended witness: concrete ports from the golden test
`AUTOINST_ExpandEmpty`. -/
theorem defaultConnExpr_packed_cases_witness :
    defaultConnExpr ⟨"o1", Direction.output, ["[15:0]"], []⟩ =
        "o1" ++ "[15:0]" ∧
      defaultConnExpr ⟨"io", Direction.inout, ["[7:0]", "[7:0]"], []⟩ =
        "io" ++ dimComment ["[7:0]", "[7:0]"] [] :=
  ⟨defaultConnExpr_packed_cases.1 ⟨"o1", Direction.output, ["[15:0]"], []⟩
      "[15:0]" rfl rfl,
    defaultConnExpr_packed_cases.2 ⟨"io", Direction.inout, ["[7:0]", "[7:0]"], []⟩
      (by decide) rfl⟩

/-- C7: an AUTOINST directive whose instance's target module name the
Project Resolver cannot resolve produces no edit: the instance (its
directive, pre-existing connections and trailing text) is returned
byte-identical. -/
theorem autoinst_unresolved_no_edit (env : List (List VModule))
    (templates : List TemplateRule) (inst : VInstance)
    (hres : lookupProject env inst.modName = none) :
    expandInstance env templates inst = inst := by
  unfold expandInstance
  rw [hres]
  cases inst.hasAutoinst <;> rfl

/-- C7 witness: the instance from `AUTOINST_Missing` — `bar` is nowhere
declared, so the instance is untouched. -/
theorem autoinst_unresolved_no_edit_witness :
    expandInstance [[⟨"foo", [], [], [], [], [], [⟨"b", "bar", true, [], []⟩],
          []⟩]] []
        ⟨"b", "bar", true, [], []⟩ =
      ⟨"b", "bar", true, [], []⟩ :=
  autoinst_unresolved_no_edit _ _ _ (by decide)

/-- A four-module AUTOINPUT chain: `chainModD` instantiates `chainModA`
instantiates `chainModB` instantiates `chainLeafC`, which declares the
input `x`.  Each AUTOINPUT pulls `x` one level up per pass, so the
declared-port fixed point needs three passes — one more than the
engine's bound. -/
def chainLeafC : VModule :=
  { name := "c", headerPorts := []
    bodyPorts := [⟨"x", Direction.input, [], []⟩]
    locals := [], preArgTokens := [], templates := [], instances := []
    directives := [] }

def chainModB : VModule :=
  { name := "b", headerPorts := [], bodyPorts := []
    locals := [], preArgTokens := [], templates := []
    instances := [⟨"ic", "c", false, [], []⟩]
    directives := [⟨DirectiveKind.autoinput, DirContext.body, [], []⟩] }

def chainModA : VModule :=
  { name := "a", headerPorts := [], bodyPorts := []
    locals := [], preArgTokens := [], templates := []
    instances := [⟨"ib", "b", false, [], []⟩]
    directives := [⟨DirectiveKind.autoinput, DirContext.body, [], []⟩] }

def chainModD : VModule :=
  { name := "d", headerPorts := [], bodyPorts := []
    locals := [], preArgTokens := [], templates := []
    instances := [⟨"ia", "a", false, [], []⟩]
    directives := [⟨DirectiveKind.autoinput, DirContext.body, [], []⟩] }

/-- The buffer holding the four chain modules, in an order that defeats
per-pass propagation. -/
def autoinputChain : List VModule :=
  [chainModD, chainModA, chainModB, chainLeafC]

/-- C1 counterexample: on the four-module AUTOINPUT chain the bounded
two-pass expansion has not converged, and applying the full expansion a
second time still adds `input x` to the top module — so
`expand (expand S) ≠ expand S` for this source S. -/
theorem expand_not_idempotent_chain :
    expand [] (expand [] autoinputChain) ≠ expand [] autoinputChain := by
  decide

/-- C1 amended: expansion is idempotent for every source on which the
bounded fixed point (§4.6) has converged within the two-pass bound,
i.e. whenever one further pass leaves the expanded buffer unchanged;
a source whose cross-module dependency chain needs more passes (the
counterexample) can change again under a second expansion. -/
theorem expand_idempotent_of_fixed_point (peers : List (List VModule))
    (buf : List VModule)
    (h : expandPass peers (expand peers buf) = expand peers buf) :
    expand peers (expand peers buf) = expand peers buf := by
  simp only [expand] at h ⊢
  rw [h, h]

/-- A buffer with one AUTOARG module (the `t1` of `AUTOARG_ExpandEmpty`)
on which the fixed point converges immediately. -/
def autoargOnlyBuffer : List VModule :=
  [{ name := "t1", headerPorts := []
     bodyPorts := [⟨"clk", Direction.input, [], []⟩,
                   ⟨"rst", Direction.input, [], []⟩,
                   ⟨"o", Direction.output, [], []⟩]
     locals := [], preArgTokens := [], templates := [], instances := []
     directives := [⟨DirectiveKind.autoarg, DirContext.headerParen, [], []⟩] }]

/-- C1 amended witness: the one-module AUTOARG buffer converges within
the bound, so its expansion is idempotent. -/
theorem expand_idempotent_of_fixed_point_witness :
    expand [] (expand [] autoargOnlyBuffer) = expand [] autoargOnlyBuffer :=
  expand_idempotent_of_fixed_point [] autoargOnlyBuffer (by decide)

/-- C5: for every AUTOINST expansion, the connections already written
before the directive are preserved verbatim, and no generated
`.port(expr)` entry names a port already connected in the pre-existing
argument list. -/
theorem autoinst_preserves_preconnected (env : List (List VModule))
    (templates : List TemplateRule) (inst : VInstance) (target : VModule)
    (hauto : inst.hasAutoinst = true)
    (hres : lookupProject env inst.modName = some target) :
    (expandInstance env templates inst).preConns = inst.preConns ∧
      ∀ c ∈ (expandInstance env templates inst).genConns,
        ∀ c₀ ∈ inst.preConns, c.portName ≠ c₀.portName := by
  have hexp : expandInstance env templates inst =
      { inst with genConns :=
          ((groupByDirection
            (((portsExternal target).filter fun p =>
                isConnPortDir p.dir).filter fun p =>
              !(inst.preConns.any fun c => c.portName == p.name))).map
            (fun p =>
              { portName := p.name,
                expr := templConnExpr (selectRule templates inst.modName)
                  p })) } := by
    unfold expandInstance
    rw [hres, hauto]
    rfl
  rw [hexp]
  refine ⟨rfl, fun c hc c₀ hc₀ hEq => ?_⟩
  rcases List.mem_map.mp hc with ⟨p, hp, hcp⟩
  have hptodo := mem_of_groupByDirection _ _ hp
  have hnoconn := (List.mem_filter.mp hptodo).2
  rw [Bool.not_eq_eq_eq_not, Bool.not_true, List.any_eq_false] at hnoconn
  have hname : c.portName = p.name := by rw [← hcp]
  exact hnoconn c₀ hc₀ (by simp [← hname, hEq])

/-- C5 witness: the `AUTOINST_SkipPreConnected` scenario — `.i1(io)` is
already connected, so the generated block never names `i1` and the
pre-existing connection is preserved. -/
theorem autoinst_preserves_preconnected_witness :
    (expandInstance
          [[⟨"bar",
              [⟨"i1", Direction.input, [], []⟩,
               ⟨"o1", Direction.output, ["[15:0]"], []⟩], [], [], [], [], [],
              []⟩]]
          [] ⟨"b", "bar", true, [⟨"i1", "io"⟩], []⟩).preConns =
        [⟨"i1", "io"⟩] ∧
      ∀ c ∈ (expandInstance
          [[⟨"bar",
              [⟨"i1", Direction.input, [], []⟩,
               ⟨"o1", Direction.output, ["[15:0]"], []⟩], [], [], [], [], [],
              []⟩]]
          [] ⟨"b", "bar", true, [⟨"i1", "io"⟩], []⟩).genConns,
        ∀ c₀ ∈ ([⟨"i1", "io"⟩] : List Connection),
          c.portName ≠ c₀.portName :=
  autoinst_preserves_preconnected
    [[⟨"bar",
        [⟨"i1", Direction.input, [], []⟩,
         ⟨"o1", Direction.output, ["[15:0]"], []⟩], [], [], [], [], [], []⟩]]
    [] ⟨"b", "bar", true, [⟨"i1", "io"⟩], []⟩
    ⟨"bar",
      [⟨"i1", Direction.input, [], []⟩,
       ⟨"o1", Direction.output, ["[15:0]"], []⟩], [], [], [], [], [], []⟩
    rfl (by decide)

theorem lookupFile_eq_find (ms : List VModule) (n : String) :
    lookupFile ms n = ms.find? fun m => m.name == n := by
  induction ms with
  | nil => rfl
  | cons m ms ih =>
    rw [lookupFile, ih]
    cases h : m.name == n
    · rw [if_neg (by simp)]
      symm
      exact @List.find?_cons_of_neg VModule (fun m => m.name == n) m ms
        (by simp [h])
    · rw [if_pos rfl]
      symm
      exact @List.find?_cons_of_pos VModule (fun m => m.name == n) m ms h

/-- C6: every lookup resolves to the first declaration encountered —
project files are scanned in registration order and declarations within
a file in source order, so `lookup` equals first-match search over the
concatenation of all files; in particular, within one file a
declaration shadows every later declaration of the same name, with no
diagnostic (the resolver has no error channel). -/
theorem lookup_first_declaration_wins :
    (∀ (files : List (List VModule)) (n : String),
        lookupProject files n = files.flatten.find? fun m => m.name == n) ∧
      ∀ (m₁ m₂ : VModule) (ms : List VModule) (n : String), m₁.name = n →
        lookupFile (m₁ :: m₂ :: ms) n = some m₁ := by
  constructor
  · intro files n
    induction files with
    | nil => rfl
    | cons f fs ih =>
      rw [lookupProject, ih, lookupFile_eq_find, List.flatten_cons,
        List.find?_append]
      cases f.find? fun m => m.name == n <;> rfl
  · intro m₁ m₂ ms n h
    rw [lookupFile, if_pos (by simp [h])]

/-- C6 witness: the duplicated `bar` of `AUTOINST_Ambiguous` — the
first declaration (ports `i1`, `o1`) wins over the second (`i2`,
`o2`). -/
theorem lookup_first_declaration_wins_witness :
    lookupFile
        [⟨"bar", [⟨"i1", Direction.input, [], []⟩,
            ⟨"o1", Direction.output, [], []⟩], [], [], [], [], [], []⟩,
         ⟨"bar", [⟨"i2", Direction.input, [], []⟩,
            ⟨"o2", Direction.output, [], []⟩], [], [], [], [], [], []⟩]
        "bar" =
      some ⟨"bar", [⟨"i1", Direction.input, [], []⟩,
        ⟨"o1", Direction.output, [], []⟩], [], [], [], [], [], []⟩ :=
  lookup_first_declaration_wins.2
    ⟨"bar", [⟨"i1", Direction.input, [], []⟩,
      ⟨"o1", Direction.output, [], []⟩], [], [], [], [], [], []⟩
    ⟨"bar", [⟨"i2", Direction.input, [], []⟩,
      ⟨"o2", Direction.output, [], []⟩], [], [], [], [], [], []⟩
    [] "bar" rfl

/-- A directive sitting in a context its kind does not allow: AUTOARG
outside the header parentheses, or AUTOWIRE / AUTOREG inside them. -/
def wrongContext (d : Directive) : Bool :=
  (d.kind == DirectiveKind.autoarg && d.context == DirContext.body) ||
    ((d.kind == DirectiveKind.autowire || d.kind == DirectiveKind.autoreg) &&
      d.context == DirContext.headerParen)

theorem expand_directive_wrong_context (env : List (List VModule))
    (m mCur : VModule) (d : Directive) (h : wrongContext d = true) :
    expandOtherDirective env m mCur (expandPortDirective env m d) = d := by
  rcases d with ⟨k, c, gd, ga⟩
  cases k <;> cases c <;>
    simp_all [wrongContext, expandPortDirective, isPortDirectiveKind,
      expandOtherDirective]

/-- C8: a directive in a context its kind does not allow produces no
edit — the directive (including its trailing generated block) is kept
unchanged at its position — while the rest of the module is still
processed (same number of directives, instances still expanded). -/
theorem wrong_context_no_edit (env : List (List VModule)) (m : VModule) :
    (expandModule env m).directives.length = m.directives.length ∧
      (∀ (i : ℕ) (h1 : i < m.directives.length)
          (h2 : i < (expandModule env m).directives.length),
        wrongContext (m.directives.get ⟨i, h1⟩) = true →
        (expandModule env m).directives.get ⟨i, h2⟩ =
          m.directives.get ⟨i, h1⟩) ∧
      (expandModule env m).instances =
        m.instances.map (expandInstance env m.templates) := by
  refine ⟨by simp [expandModule], fun i h1 h2 hw => ?_, rfl⟩
  simp only [expandModule, List.get_eq_getElem, List.getElem_map] at h2 ⊢
  rw [List.get_eq_getElem] at hw
  exact expand_directive_wrong_context _ _ _ _ hw

/-- C8 witness: the `AUTOARG_NoExpand` module — AUTOARG in the body —
is left unchanged while its (empty) instance list is processed. -/
theorem wrong_context_no_edit_witness :
    (expandModule
          [[⟨"t", [], [⟨"clk", Direction.input, [], []⟩],
              [], [], [], [],
              [⟨DirectiveKind.autoarg, DirContext.body, [], []⟩]⟩]]
          ⟨"t", [], [⟨"clk", Direction.input, [], []⟩],
            [], [], [], [],
            [⟨DirectiveKind.autoarg, DirContext.body, [], []⟩]⟩).directives.get
        ⟨0, by decide⟩ =
      ⟨DirectiveKind.autoarg, DirContext.body, [], []⟩ :=
  (wrong_context_no_edit
      [[⟨"t", [], [⟨"clk", Direction.input, [], []⟩],
          [], [], [], [],
          [⟨DirectiveKind.autoarg, DirContext.body, [], []⟩]⟩]]
      ⟨"t", [], [⟨"clk", Direction.input, [], []⟩],
        [], [], [], [],
        [⟨DirectiveKind.autoarg, DirContext.body, [], []⟩]⟩).2.1
    0 (by decide) (by decide) (by decide)

/-- The module of the C9 counterexample: `output [15:0] o1;` plus an
AUTOREG directive (the `AUTO_ExpandVars` scenario, reduced). -/
def regFooModule : VModule :=
  { name := "foo", headerPorts := []
    bodyPorts := [⟨"o1", Direction.output, ["[15:0]"], []⟩]
    locals := [], preArgTokens := [], templates := [], instances := []
    directives := [⟨DirectiveKind.autoreg, DirContext.body, [], []⟩] }

/-- C9 counterexample: AUTOREG emits `reg [15:0] o1;` although `o1` is
already declared in the enclosing module (as an output port) — so the
claim is false for AUTOREG (its purpose is precisely to add `reg`
storage for declared output ports). -/
theorem autoreg_redeclares_output_counterexample :
    (expandModule [[regFooModule]] regFooModule).directives =
        [⟨DirectiveKind.autoreg, DirContext.body,
          [⟨Direction.reg, ["[15:0]"], "o1", [], none⟩], []⟩] ∧
      "o1" ∈ baseDeclaredNames regFooModule := by
  constructor
  · rfl
  · decide

theorem name_not_declared_of_mem_declDirectiveGen
    (env : List (List VModule)) (m : VModule) (k : DirectiveKind)
    (g : GenDecl) (hg : g ∈ declDirectiveGen env m k) :
    g.name ∉ baseDeclaredNames m := by
  have h1 := mem_of_mem_dedupByName _ _ _ hg
  have h2 := (List.mem_filter.mp h1).2
  simpa using h2

theorem name_not_reg_of_mem_autoregGen (env : List (List VModule))
    (m mCur : VModule) (g : GenDecl) (hg : g ∈ autoregGen env m mCur) :
    g.name ∉ regDeclaredNames m := by
  have h1 := mem_of_mem_dedupByName _ _ _ hg
  rcases List.mem_map.mp h1 with ⟨p, hp, hgp⟩
  have h2 := (List.mem_filter.mp hp).2
  rw [Bool.and_eq_true] at h2
  have h3 := h2.1
  rw [← hgp]
  simpa using h3

/-- C9 amended: the generated blocks of AUTOINPUT / AUTOOUTPUT /
AUTOINOUT / AUTOWIRE never contain a declaration for a name already
declared in the enclosing module (port, variable, net or reg outside
the generated blocks); the AUTOREG block never contains a declaration
for a name already declared as `reg` (it deliberately re-declares
output-port names to give them `reg` storage). -/
theorem decl_directives_no_redeclaration (env : List (List VModule))
    (m : VModule) :
    (∀ (k : DirectiveKind) (g : GenDecl), g ∈ declDirectiveGen env m k →
        g.name ∉ baseDeclaredNames m) ∧
      ∀ (mCur : VModule) (g : GenDecl), g ∈ autoregGen env m mCur →
        g.name ∉ regDeclaredNames m :=
  ⟨fun k g hg => name_not_declared_of_mem_declDirectiveGen env m k g hg,
    fun mCur g hg => name_not_reg_of_mem_autoregGen env m mCur g hg⟩

/-- C9 amended witness: in the `AUTOWIRE_ExpandEmpty` scenario the
generated `wire` declaration for `io` is for a name not declared in
`foo`, and in the reduced AUTOREG scenario the generated `reg o1` is
for a name not declared as `reg`. -/
theorem decl_directives_no_redeclaration_witness :
    ("io" : String) ∉
        baseDeclaredNames
          ⟨"foo", [], [], [("o1", Direction.wire)], [], [],
            [⟨"b", "bar", true, [], []⟩], []⟩ ∧
      ("o1" : String) ∉ regDeclaredNames regFooModule :=
  ⟨by
    have h :=
      (decl_directives_no_redeclaration
          [[⟨"foo", [], [], [("o1", Direction.wire)], [], [],
              [⟨"b", "bar", true, [], []⟩], []⟩,
            ⟨"bar", [],
              [⟨"io", Direction.inout, ["[7:0]", "[7:0]"], []⟩,
               ⟨"o2", Direction.output, ["[31:0]"], ["[8]"]⟩],
              [], [], [], [], []⟩]]
          ⟨"foo", [], [], [("o1", Direction.wire)], [], [],
            [⟨"b", "bar", true, [], []⟩], []⟩).1
        DirectiveKind.autowire
        ⟨Direction.wire, ["[7:0]", "[7:0]"], "io", [], some ("b", "bar")⟩
        (by decide)
    simpa using h,
    by
    have h :=
      (decl_directives_no_redeclaration [[regFooModule]] regFooModule).2
        regFooModule ⟨Direction.reg, ["[15:0]"], "o1", [], none⟩ (by decide)
    simpa using h⟩

/-- C10: `ReadCharFromUser` is total (it is a Lean function) and its
result is fully case-defined: if the stream reports end-of-file or
failure after the read it returns `'\0'`; otherwise, with terminal
input it prints the prompt and returns the first character of the line
read (`'\n'` for an empty line), and with non-terminal input it prints
nothing and returns the single character read. -/
theorem ReadCharFromUser_spec (input : List Char) (prompt : String) :
    ((getlineEofOrFail input = true →
        ReadCharFromUser input true prompt = ('\x00', prompt)) ∧
      (getlineEofOrFail input = false → getlineLine input = [] →
        ReadCharFromUser input true prompt = ('\n', prompt)) ∧
      ∀ (c : Char) (cs : List Char),
        getlineEofOrFail input = false → getlineLine input = c :: cs →
        ReadCharFromUser input true prompt = (c, prompt)) ∧
      ((input = [] → ReadCharFromUser input false prompt = ('\x00', "")) ∧
        ∀ (c : Char) (cs : List Char), input = c :: cs →
          ReadCharFromUser input false prompt = (c, "")) := by
  refine ⟨⟨fun he => ?_, fun he hl => ?_, fun c cs he hl => ?_⟩,
    fun hi => ?_, fun c cs hi => ?_⟩
  · simp [ReadCharFromUser, he]
  · simp [ReadCharFromUser, he, hl]
  · simp [ReadCharFromUser, he, hl]
  · simp [ReadCharFromUser, hi]
  · simp [ReadCharFromUser, hi]

/-- C10 witness: on the terminal input line `y\n` the function returns
`'y'` and prints the prompt; on the non-terminal single character `n`
it returns `'n'` and prints nothing. -/
theorem ReadCharFromUser_spec_witness :
    ReadCharFromUser ['y', '\n'] true "Press y: " = ('y', "Press y: ") ∧
      ReadCharFromUser ['n'] false "Press y: " = ('n', "") :=
  ⟨(ReadCharFromUser_spec ['y', '\n'] "Press y: ").1.2.2 'y' [] rfl rfl,
    (ReadCharFromUser_spec ['n'] "Press y: ").2.2 'n' [] rfl⟩

end Verible
